import Mathlib

/-!
Verification of the trace-driven request replayer and SLO evaluator of
`evaluation/2-benchmark-serving/benchmark-serving.py` (DistServe benchmark
client), as a shallow embedding in Lean.  Timestamps, durations and
thresholds (Python floats) are modelled as rationals; per-request token
timestamps are lists of rationals.
-/

/-! ## Scheduling (task, lines 37-41) and the two epoch captures -/

/-! ## The per-request retry loop (task, lines 45-68) -/

/-! ## Request payload and target (task, lines 24-35; main, line 102) -/

/-! ## Trace loading (main, lines 99 and 112-117) -/

/-! ## Aggregation and evaluator-determinism helpers -/

/-- Modelled from the spec: `RequestResult` is imported from `structs.py`,
which is not part of the sources here; its fields follow the data model
(§3): prompt length, output length (`output_len`, as read back by `main`),
send and completion timestamps, `slo_ratio`, the ordered token timestamps,
and an opaque optional `lifetime_events` payload. -/
structure RequestResult where
  prompt_length : ℕ
  output_len : ℕ
  sent_at : ℚ
  completed_at : ℚ
  slo_ratio : ℚ
  token_timestamps : List ℚ
  lifetime_events : Option String

/-- Modelled from the spec: `RequestResult.ftl` (read by `evaluate_request`,
defined in the absent `structs.py`) is the first-token latency, "first entry
of `token_timestamps` minus `sent_at`". -/
def RequestResult.ftl (r : RequestResult) : ℚ :=
  r.token_timestamps.headI - r.sent_at

/-- The delta-scanning loop of `evaluate_request` (lines 90-93):
`for i in range(1, len(ts)): if ts[i] - ts[i-1] > thr: attained = 0; break`.
Returns `true` when every consecutive delta is within the threshold
(`request_slo_attained` stays 1), `false` on the first offending delta. -/
def deltasWithin (thr : ℚ) : List ℚ → Bool
  | [] => true
  | [_] => true
  | a :: b :: rest =>
      if b - a > thr then false else deltasWithin thr (b :: rest)

/-- `evaluate_request(req, target_ttft, target_tpot)` (lines 85-96): returns
`(0, 0)` when `req.ftl > target_ttft * req.slo_ratio`; otherwise scans the
consecutive token-timestamp deltas against `target_tpot * req.slo_ratio` and
returns `(request_slo_attained, len(token_timestamps) if attained else 0)`. -/
def evaluate_request (req : RequestResult) (target_ttft target_tpot : ℚ) : ℕ × ℕ :=
  if req.ftl > target_ttft * req.slo_ratio then (0, 0)
  else if deltasWithin (target_tpot * req.slo_ratio) req.token_timestamps then
    (1, req.token_timestamps.length)
  else (0, 0)

/-- The accumulation loop of `main` (lines 132-137): starting from
`request_attainment = 0` and `token_attainment = 0`, folds over the request
results adding the two components of `evaluate_request`. -/
def tallyLoop (results : List RequestResult) (base_ttft base_tpot : ℚ) : ℕ × ℕ :=
  results.foldl
    (fun acc req =>
      (acc.1 + (evaluate_request req base_ttft base_tpot).1,
       acc.2 + (evaluate_request req base_ttft base_tpot).2))
    (0, 0)

/-- Reported request attainment rate (line 139 prints it as a percentage):
accumulated `request_attainment` over `total_requests`. -/
def request_attainment_rate (results : List RequestResult) (base_ttft base_tpot : ℚ) : ℚ :=
  ((tallyLoop results base_ttft base_tpot).1 : ℚ) / (results.length : ℚ)

/-- Reported token goodput (line 141): accumulated `token_attainment` over
the measured total wall-clock time. -/
def token_goodput (results : List RequestResult) (base_ttft base_tpot total_time : ℚ) : ℚ :=
  ((tallyLoop results base_ttft base_tpot).2 : ℚ) / total_time

/-- The consecutive deltas of a timestamp list: element `i` is
`ts[i+1] - ts[i]`. -/
def consecutiveDeltas (ts : List ℚ) : List ℚ :=
  List.zipWith (fun b a => b - a) ts.tail ts

/-- `elapsed_time_ms = (time.perf_counter() - start_time) * 1000` (line 37):
milliseconds elapsed at absolute instant `now` since the epoch
`start_time` (both in seconds). -/
def elapsed_time_ms (now start_time : ℚ) : ℚ :=
  (now - start_time) * 1000

/-- `wait_time_ms = emission_time_ms - elapsed_time_ms` (line 38). -/
def wait_time_ms (emission_time_ms elapsed : ℚ) : ℚ :=
  emission_time_ms - elapsed

/-- The send instant of `task` under an idealized clock: if
`wait_time_ms > 0` the task sleeps `wait_time_ms / 1000` seconds
(line 39-40) and then records `request_sent_time` (line 41); otherwise it
records it immediately. -/
def request_sent_time (start_time now emission_time_ms : ℚ) : ℚ :=
  if wait_time_ms emission_time_ms (elapsed_time_ms now start_time) > 0 then
    now + wait_time_ms emission_time_ms (elapsed_time_ms now start_time) / 1000
  else now

/-- The two epoch captures of the script: the module-level
`start_time = time.perf_counter()` at import (line 12), and the
`start_time = time.perf_counter()` inside `main` (line 111).  `task`
declares `global start_time` and therefore reads the module-level capture;
`main` contains no `global` declaration, so its assignment binds a
function-local variable and leaves the module-level value untouched. -/
structure RunClock where
  module_start_time : ℚ
  main_start_time : ℚ

/-- The epoch `task` measures its elapsed time (and hence its wait) against:
the module-level `start_time` read through `global start_time`. -/
def taskEpoch (c : RunClock) : ℚ := c.module_start_time

/-- The epoch the final summary measures total wall-clock time against:
`total_time = time.perf_counter() - start_time` (line 123) resolves
`start_time` to `main`'s local capture (line 111). -/
def summaryEpoch (c : RunClock) : ℚ := c.main_start_time

/-- `total_time` of `main` (line 123). -/
def totalTime (c : RunClock) (endTime : ℚ) : ℚ :=
  endTime - summaryEpoch c

/-- A parsed response body: the optional `"text"` field (absent on the
wire contract's error shape `{"error": string}`), the per-token
`timestamps`, optional `lifetime_events`, and the optional `"error"` field
(`error = none` models `"error" not in output`). -/
structure ServerOutput where
  text : Option String
  timestamps : List ℚ
  lifetime_events : Option String
  error : Option String
  deriving DecidableEq

/-- One server response as seen by the loop body: either a body on which
`json.loads` fails, or a parsed `ServerOutput`. -/
inductive ServerResponse where
  | malformed (raw : String)
  | parsed (out : ServerOutput)

/-- A response that terminates the loop: well-formed and without an
`"error"` field. -/
def ServerResponse.isGood : ServerResponse → Bool
  | .malformed _ => false
  | .parsed o => o.error.isNone

/-- The possible outcomes of the retry loop on a finite response
sequence: an accepted output (`break` at line 62), exhaustion of the
sequence (the loop is still resending), or an uncaught exception that
aborts the task. -/
inductive LoopOutcome where
  | accepted (o : ServerOutput)
  | exhausted
  | crashed (msg : String)
  deriving DecidableEq

/-- The `while True` retry loop (lines 46-65) over the sequence of
responses the server returns for the repeatedly re-sent request.  A
malformed body (`json.loads` failure, lines 52-56) is logged and the
request re-sent.  A parsed body first hits the verbose print (lines
58-59), which reads `output['text']` before the error check: when
`verbose` is set and the body has no `"text"` key this raises `KeyError`
and aborts the task.  Otherwise a body carrying an `"error"` field (lines
63-65) is logged and the request re-sent, and the first well-formed
error-free body is kept as `request_output` (lines 61-62). -/
def requestLoop (verbose : Bool) : List ServerResponse → LoopOutcome
  | [] => .exhausted
  | .malformed _ :: rest => requestLoop verbose rest
  | .parsed o :: rest =>
    if verbose && o.text.isNone then .crashed "KeyError: text"
    else if o.error.isNone then .accepted o
    else requestLoop verbose rest

/-- The `RequestResult` built at lines 71-79 from the accepted output. -/
def resultOfOutput (prompt_length output_length : ℕ)
    (request_sent_t request_end_t slo_ratio : ℚ) (o : ServerOutput) : RequestResult :=
  { prompt_length := prompt_length
    output_len := output_length
    sent_at := request_sent_t
    completed_at := request_end_t
    slo_ratio := slo_ratio
    token_timestamps := o.timestamps
    lifetime_events := o.lifetime_events }

/-- The result of `task`'s response-processing phase on a given response
sequence: a `RequestResult` exactly when the loop accepted an output. -/
def taskResult (verbose : Bool) (prompt_length output_length : ℕ)
    (request_sent_t request_end_t slo_ratio : ℚ)
    (resps : List ServerResponse) : Option RequestResult :=
  match requestLoop verbose resps with
  | .accepted o =>
      some (resultOfOutput prompt_length output_length
        request_sent_t request_end_t slo_ratio o)
  | _ => none

/-- A well-typed trace record per the data model (§3). -/
structure TraceRecord where
  emission_time_ms : ℚ
  prompt : String
  input_length : ℕ
  output_length : ℕ
  slo_ratio : ℚ

/-- The JSON request body built by `task` (lines 25-35), one field per key
of the `payload` dict, with temperature and top-p as rationals. -/
structure Payload where
  prompt : String
  n : ℕ
  best_of : ℕ
  use_beam_search : Bool
  temperature : ℚ
  top_p : ℚ
  max_tokens : ℕ
  ignore_eos : Bool
  stream : Bool

/-- `payload = {...}` (lines 25-35): the record's prompt and output length
together with the fixed constants `n=1`, `best_of=1`,
`use_beam_search=False`, `temperature=1.0`, `top_p=1.0`,
`ignore_eos=False`, `stream=False`. -/
def buildPayload (r : TraceRecord) : Payload :=
  { prompt := r.prompt
    n := 1
    best_of := 1
    use_beam_search := false
    temperature := 1
    top_p := 1
    max_tokens := r.output_length
    ignore_eos := false
    stream := false }

/-- The request target `url = f"http://{args.host}:{args.port}/generate"`
(line 102). -/
def requestUrl (host port : String) : String :=
  "http://" ++ host ++ ":" ++ port ++ "/generate"

/-- The HTTP method used to send every request: `session.post` (line 47). -/
def requestMethod : String := "POST"

/-- Modelled from the spec: the decoding-parameter gloss of §4.2 step 3,
"fixed deterministic-decoding parameters (single sample,
greedy/deterministic, no early stop on end-of-sequence token)".  A single
sample means `n = 1`, `best_of = 1` and no beam search; greedy
(deterministic) decoding means sampling temperature 0 (argmax); no early
stop on the end-of-sequence token means the EOS token is ignored during
generation, i.e. `ignore_eos = true`. -/
def specDeterministicDecodingParams (p : Payload) : Prop :=
  p.n = 1 ∧ p.best_of = 1 ∧ p.use_beam_search = false ∧
  p.temperature = 0 ∧ p.ignore_eos = true

/-- A JSON value, as produced by `json.load`. -/
inductive Json where
  | num (q : ℚ)
  | str (s : String)
  | bool (b : Bool)
  | null
  | arr (elems : List Json)
  | obj (fields : List (String × Json))

/-- `req[key]` on a record of the loaded trace: a key lookup that raises
`KeyError` on a missing key and `TypeError` when the record is not an
object.  The looked-up value is returned as-is — the source performs no
type check on it. -/
def readField (j : Json) (k : String) : Except String Json :=
  match j with
  | .obj fields =>
      match fields.lookup k with
      | some v => .ok v
      | none => .error ("KeyError: " ++ k)
  | _ => .error "TypeError: record is not an object"

/-- One trace record as the source actually binds it (lines 113-117): the
five required fields, each kept as the untyped JSON value found in the
file. -/
structure RawRecord where
  emission_time_ms : Json
  prompt : Json
  input_length : Json
  output_length : Json
  slo_ratio : Json

/-- The body of the scheduling loop for one record (lines 113-117), field
reads in source order; the first missing key aborts with its error. -/
def loadRecord (j : Json) : Except String RawRecord :=
  match readField j "emission_time_ms" with
  | .error e => .error e
  | .ok v1 =>
    match readField j "prompt" with
    | .error e => .error e
    | .ok v2 =>
      match readField j "input_length" with
      | .error e => .error e
      | .ok v3 =>
        match readField j "output_length" with
        | .error e => .error e
        | .ok v4 =>
          match readField j "slo_ratio" with
          | .error e => .error e
          | .ok v5 => .ok ⟨v1, v2, v3, v4, v5⟩

/-- The scheduling loop of `main` (lines 112-118) viewed as a loader:
records are processed in trace order and the first failing record aborts
the whole run with its error. -/
def loadTrace : List Json → Except String (List RawRecord)
  | [] => .ok []
  | j :: rest =>
    match loadRecord j with
    | .error e => .error e
    | .ok r =>
      match loadTrace rest with
      | .error e => .error e
      | .ok rs => .ok (r :: rs)

/-- Whether a record is a JSON object (a Python dict). -/
def Json.isObj : Json → Bool
  | .obj _ => true
  | _ => false

/-- Whether a record's task reaches `session.post` (line 47).  Before
sending, line 38 computes `emission_time_ms - elapsed_time_ms`; Python
subtraction succeeds on numbers (including `bool`, an `int` subtype) and
raises `TypeError` on any other type, aborting that task before any
request is sent.  Every other field of the record is only embedded in the
payload, so no other type stops the send. -/
def RawRecord.reachesSend (r : RawRecord) : Bool :=
  match r.emission_time_ms with
  | .num _ => true
  | .bool _ => true
  | _ => false

/-- The records for which a request is actually sent in a run.  When the
loader aborts, no created task ever runs (the `KeyError` is raised before
`main` reaches any suspension point and `asyncio.run` then cancels the
tasks), so nothing is sent.  When loading succeeds, every task runs and a
record's request is sent exactly when its task reaches `session.post`,
i.e. survives the line-38 wait arithmetic (`RawRecord.reachesSend`). -/
def sentRequests (trace : List Json) : List RawRecord :=
  match loadTrace trace with
  | .ok rs => rs.filter RawRecord.reachesSend
  | .error _ => []

/-- The five keys the loop reads from every record. -/
def requiredKeys : List String :=
  ["emission_time_ms", "prompt", "input_length", "output_length", "slo_ratio"]

/-- The fields of a `RequestResult` that `evaluate_request` reads:
`sent_at` and the token timestamps (through `ftl`) and `slo_ratio`. -/
def sameEvalFields (a b : RequestResult) : Prop :=
  a.sent_at = b.sent_at ∧ a.slo_ratio = b.slo_ratio ∧
  a.token_timestamps = b.token_timestamps

/-- A concrete trace record used to evaluate the payload builder. -/
def sampleRecord : TraceRecord :=
  { emission_time_ms := 0, prompt := "p", input_length := 1,
    output_length := 8, slo_ratio := 1 }

/-- A concrete request result matching the spec's worked example (§8):
sent at 0, token timestamps 0.2, 0.25, 0.31, slo_ratio 1. -/
def attainedResult : RequestResult :=
  { prompt_length := 5, output_len := 3, sent_at := 0, completed_at := 1,
    slo_ratio := 1, token_timestamps := [1/5, 1/4, 31/100],
    lifetime_events := none }

/-- A concrete request result whose first token arrives at 0.35, past the
0.3 first-token threshold. -/
def missedResult : RequestResult :=
  { prompt_length := 5, output_len := 2, sent_at := 0, completed_at := 1,
    slo_ratio := 1, token_timestamps := [7/20, 2/5],
    lifetime_events := none }

/-- A concrete error-free server output. -/
def goodOutput : ServerOutput :=
  { text := some "ok", timestamps := [1/5, 1/4], lifetime_events := none,
    error := none }

/-- A concrete server output of the wire contract's error shape
`{"error": string}`: an `"error"` field and no `"text"` field. -/
def errorOutput : ServerOutput :=
  { text := none, timestamps := [], lifetime_events := none,
    error := some "boom" }

/-- A concrete response sequence: a malformed body, then an error body,
then a well-formed error-free body. -/
def responsesExample : List ServerResponse :=
  [.malformed "<html>", .parsed errorOutput, .parsed goodOutput]

/-- A one-record trace in which every required field is present but has the
wrong type; its string emission offset makes the task die at the wait
arithmetic before sending. -/
def wrongTypedTrace : List Json :=
  [.obj [("emission_time_ms", .str "soon"), ("prompt", .num 42),
         ("input_length", .bool true), ("output_length", .str "many"),
         ("slo_ratio", .null)]]

/-- A one-record trace with a numeric emission offset but every other
required field wrong-typed: it loads and its request is sent. -/
def wrongTypedTrace2 : List Json :=
  [.obj [("emission_time_ms", .num 0), ("prompt", .num 42),
         ("input_length", .bool true), ("output_length", .str "many"),
         ("slo_ratio", .null)]]

/-- A one-record trace whose record is missing the required `prompt` key. -/
def missingFieldTrace : List Json :=
  [.obj [("emission_time_ms", .num 0), ("input_length", .num 5),
         ("output_length", .num 8), ("slo_ratio", .num 1)]]

/-! ## Lemmas and theorems -/

lemma consecutiveDeltas_nil : consecutiveDeltas [] = [] := rfl

lemma consecutiveDeltas_single (a : ℚ) : consecutiveDeltas [a] = [] := rfl

lemma consecutiveDeltas_cons (a b : ℚ) (rest : List ℚ) :
    consecutiveDeltas (a :: b :: rest) = (b - a) :: consecutiveDeltas (b :: rest) := rfl

/-- The scan loop returns `false` exactly when some consecutive delta
exceeds the threshold. -/
lemma deltasWithin_eq_false_iff (thr : ℚ) :
    ∀ ts : List ℚ, deltasWithin thr ts = false ↔ ∃ d ∈ consecutiveDeltas ts, d > thr := by
  intro ts
  induction ts with
  | nil => simp [deltasWithin, consecutiveDeltas_nil]
  | cons a tl ih =>
    cases tl with
    | nil => simp [deltasWithin, consecutiveDeltas_single]
    | cons b rest =>
      rw [consecutiveDeltas_cons]
      by_cases hba : b - a > thr
      · simp [deltasWithin, hba]
      · simp only [deltasWithin, if_neg hba, ih, List.mem_cons]
        constructor
        · rintro ⟨d, hd, hgt⟩
          exact ⟨d, Or.inr hd, hgt⟩
        · rintro ⟨d, hd, hgt⟩
          rcases hd with hd | hd
          · exact absurd (hd ▸ hgt) hba
          · exact ⟨d, hd, hgt⟩

lemma requestLoop_accepted_no_error (verbose : Bool) :
    ∀ (resps : List ServerResponse) (o : ServerOutput),
      requestLoop verbose resps = .accepted o → o.error = none := by
  intro resps
  induction resps with
  | nil => intro o h; cases h
  | cons r rest ih =>
    intro o h
    cases r with
    | malformed raw => exact ih o h
    | parsed p =>
      by_cases hv : (verbose && p.text.isNone) = true
      · simp only [requestLoop, if_pos hv] at h
        cases h
      · simp only [requestLoop, if_neg hv] at h
        by_cases hp : p.error.isNone
        · rw [if_pos hp] at h
          cases h
          exact Option.isNone_iff_eq_none.mp hp
        · rw [if_neg hp] at h
          exact ih o h

lemma requestLoop_skips_bad :
    ∀ (bad rest : List ServerResponse),
      (∀ r ∈ bad, r.isGood = false) →
      requestLoop false (bad ++ rest) = requestLoop false rest := by
  intro bad
  induction bad with
  | nil => intro rest _; rfl
  | cons r tl ih =>
    intro rest hbad
    have hr : r.isGood = false := hbad r (List.mem_cons_self r tl)
    have htl : ∀ x ∈ tl, ServerResponse.isGood x = false :=
      fun x hx => hbad x (List.mem_cons_of_mem r hx)
    cases r with
    | malformed raw =>
      simpa [requestLoop] using ih rest htl
    | parsed p =>
      have hp : p.error.isNone = false := by
        simpa [ServerResponse.isGood] using hr
      simp only [List.cons_append, requestLoop, Bool.false_and,
        Bool.false_eq_true, if_false, hp]
      exact ih rest htl

lemma requestLoop_terminates_on_good :
    ∀ resps : List ServerResponse,
      (∃ r ∈ resps, r.isGood = true) →
      ∃ o : ServerOutput, requestLoop false resps = .accepted o := by
  intro resps
  induction resps with
  | nil => rintro ⟨r, hr, _⟩; cases hr
  | cons r rest ih =>
    rintro ⟨x, hx, hgood⟩
    cases r with
    | malformed raw =>
      rcases List.mem_cons.mp hx with hx | hx
      · rw [hx] at hgood; cases hgood
      · simpa [requestLoop] using ih ⟨x, hx, hgood⟩
    | parsed p =>
      by_cases hp : p.error.isNone
      · exact ⟨p, by simp [requestLoop, hp]⟩
      · rcases List.mem_cons.mp hx with hx | hx
        · rw [hx] at hgood
          simp [ServerResponse.isGood, hp] at hgood
        · simpa [requestLoop, hp] using ih ⟨x, hx, hgood⟩

lemma loadRecord_missing_key (fields : List (String × Json)) (k : String)
    (hk : k ∈ requiredKeys) (hmiss : fields.lookup k = none) :
    ∃ e, loadRecord (.obj fields) = .error e := by
  have hfail : readField (.obj fields) k = .error ("KeyError: " ++ k) := by
    simp [readField, hmiss]
  simp only [requiredKeys, List.mem_cons, List.not_mem_nil, or_false] at hk
  unfold loadRecord
  cases h1 : readField (.obj fields) "emission_time_ms" with
  | error e => exact ⟨e, rfl⟩
  | ok v1 =>
    cases h2 : readField (.obj fields) "prompt" with
    | error e => exact ⟨e, rfl⟩
    | ok v2 =>
      cases h3 : readField (.obj fields) "input_length" with
      | error e => exact ⟨e, rfl⟩
      | ok v3 =>
        cases h4 : readField (.obj fields) "output_length" with
        | error e => exact ⟨e, rfl⟩
        | ok v4 =>
          cases h5 : readField (.obj fields) "slo_ratio" with
          | error e => exact ⟨e, rfl⟩
          | ok v5 =>
            exfalso
            rcases hk with h | h | h | h | h <;> subst h
            · exact absurd (h1 ▸ hfail) (by simp)
            · exact absurd (h2 ▸ hfail) (by simp)
            · exact absurd (h3 ▸ hfail) (by simp)
            · exact absurd (h4 ▸ hfail) (by simp)
            · exact absurd (h5 ▸ hfail) (by simp)

lemma loadRecord_non_object (j : Json) (h : j.isObj = false) :
    ∃ e, loadRecord j = .error e := by
  have hfail : readField j "emission_time_ms" =
      .error "TypeError: record is not an object" := by
    cases j <;> simp_all [readField, Json.isObj]
  exact ⟨"TypeError: record is not an object", by simp [loadRecord, hfail]⟩

lemma loadTrace_fails_of_mem (trace : List Json) (j : Json)
    (hmem : j ∈ trace) (e : String) (hfail : loadRecord j = .error e) :
    ∃ e2, loadTrace trace = .error e2 := by
  induction trace with
  | nil => cases hmem
  | cons hd tl ih =>
    rcases List.mem_cons.mp hmem with h | h
    · subst h
      exact ⟨e, by simp [loadTrace, hfail]⟩
    · rcases ih h with ⟨e2, he2⟩
      cases hhd : loadRecord hd with
      | error e3 => exact ⟨e3, by simp [loadTrace, hhd]⟩
      | ok r => exact ⟨e2, by simp [loadTrace, hhd, he2]⟩

lemma tallyLoop_go (base_ttft base_tpot : ℚ) :
    ∀ (results : List RequestResult) (acc : ℕ × ℕ),
      results.foldl
        (fun acc req =>
          (acc.1 + (evaluate_request req base_ttft base_tpot).1,
           acc.2 + (evaluate_request req base_ttft base_tpot).2)) acc =
      (acc.1 + (results.map fun req => (evaluate_request req base_ttft base_tpot).1).sum,
       acc.2 + (results.map fun req => (evaluate_request req base_ttft base_tpot).2).sum) := by
  intro results
  induction results with
  | nil => intro acc; simp
  | cons r rest ih =>
    intro acc
    simp only [List.foldl_cons, List.map_cons, List.sum_cons, ih]
    simp [Nat.add_assoc]

lemma tallyLoop_eq_sums (results : List RequestResult) (base_ttft base_tpot : ℚ) :
    tallyLoop results base_ttft base_tpot =
      ((results.map fun req => (evaluate_request req base_ttft base_tpot).1).sum,
       (results.map fun req => (evaluate_request req base_ttft base_tpot).2).sum) := by
  unfold tallyLoop
  rw [tallyLoop_go]
  simp

lemma evaluate_request_congr (a b : RequestResult) (base_ttft base_tpot : ℚ)
    (h : sameEvalFields a b) :
    evaluate_request a base_ttft base_tpot = evaluate_request b base_ttft base_tpot := by
  obtain ⟨hs, hr, ht⟩ := h
  unfold evaluate_request RequestResult.ftl
  rw [hs, hr, ht]

lemma tallyLoop_congr (base_ttft base_tpot : ℚ) :
    ∀ (l1 l2 : List RequestResult), List.Forall₂ sameEvalFields l1 l2 →
      tallyLoop l1 base_ttft base_tpot = tallyLoop l2 base_ttft base_tpot := by
  intro l1 l2 h
  rw [tallyLoop_eq_sums, tallyLoop_eq_sums]
  induction h with
  | nil => rfl
  | cons hab htl ih =>
    simp only [List.map_cons, List.sum_cons, Prod.mk.injEq] at ih ⊢
    rw [evaluate_request_congr _ _ _ _ hab, ih.1, ih.2]
    exact ⟨rfl, rfl⟩

/-! ## Claim theorems -/

/-- Claim C1: `evaluate_request` scales both thresholds by the request's
`slo_ratio` and returns `(0, 0)` when the first-token latency exceeds the
effective TTFT; otherwise `(0, 0)` when some consecutive token-timestamp
delta exceeds the effective TPOT; otherwise
`(1, len(token_timestamps))`; in particular a single-token output is
attained whenever the first-token check passes. -/
theorem C1_evaluate_request_cases (req : RequestResult) (target_ttft target_tpot : ℚ) :
    (req.ftl > target_ttft * req.slo_ratio →
      evaluate_request req target_ttft target_tpot = (0, 0)) ∧
    (¬ req.ftl > target_ttft * req.slo_ratio →
      (∃ d ∈ consecutiveDeltas req.token_timestamps, d > target_tpot * req.slo_ratio) →
      evaluate_request req target_ttft target_tpot = (0, 0)) ∧
    (¬ req.ftl > target_ttft * req.slo_ratio →
      (∀ d ∈ consecutiveDeltas req.token_timestamps, d ≤ target_tpot * req.slo_ratio) →
      evaluate_request req target_ttft target_tpot = (1, req.token_timestamps.length)) ∧
    (¬ req.ftl > target_ttft * req.slo_ratio → req.token_timestamps.length = 1 →
      evaluate_request req target_ttft target_tpot = (1, 1)) := by
  refine ⟨?_, ?_, ?_, ?_⟩
  · intro h
    simp [evaluate_request, h]
  · intro h hex
    have hfalse : deltasWithin (target_tpot * req.slo_ratio) req.token_timestamps = false :=
      (deltasWithin_eq_false_iff _ _).mpr hex
    simp [evaluate_request, h, hfalse]
  · intro h hall
    have htrue : deltasWithin (target_tpot * req.slo_ratio) req.token_timestamps = true := by
      cases hb : deltasWithin (target_tpot * req.slo_ratio) req.token_timestamps with
      | true => rfl
      | false =>
        obtain ⟨d, hd, hgt⟩ := (deltasWithin_eq_false_iff _ _).mp hb
        exact absurd hgt (not_lt.mpr (hall d hd))
    simp [evaluate_request, h, htrue]
  · intro h hlen
    obtain ⟨a, ha⟩ : ∃ a, req.token_timestamps = [a] := by
      cases hts : req.token_timestamps with
      | nil => rw [hts] at hlen; cases hlen
      | cons x tl =>
        cases tl with
        | nil => exact ⟨x, rfl⟩
        | cons y ttl => rw [hts] at hlen; simp at hlen
    simp [evaluate_request, h, ha, deltasWithin]

/-- Witness for C1 at the spec's worked example: first token at 0.2 within
0.3, deltas 0.05 and 0.06 within 0.1, so the request is attained with
token contribution 3. -/
theorem C1_witness :
    evaluate_request attainedResult (3/10) (1/10) = (1, 3) := by
  have h := (C1_evaluate_request_cases attainedResult (3/10) (1/10)).2.2.1
  have h1 : ¬ attainedResult.ftl > (3/10 : ℚ) * attainedResult.slo_ratio := by
    norm_num [attainedResult, RequestResult.ftl]
  have h2 : ∀ d ∈ consecutiveDeltas attainedResult.token_timestamps,
      d ≤ (1/10 : ℚ) * attainedResult.slo_ratio := by
    intro d hd
    have : consecutiveDeltas attainedResult.token_timestamps = [1/20, 3/50] := by
      norm_num [attainedResult, consecutiveDeltas]
    rw [this] at hd
    rcases List.mem_cons.mp hd with h | h
    · norm_num [h, attainedResult]
    · rw [List.mem_singleton] at h
      norm_num [h, attainedResult]
  exact h h1 h2

/-- Claim C2: the injected wait is `emission_time_ms - elapsed_time_ms`
when positive and zero otherwise (non-positive wait sends immediately; a
positive wait suspends for exactly that duration), so the send instant is
never earlier than the epoch plus the emission offset. -/
theorem C2_wait_and_send (start_time now emission_time : ℚ) :
    (wait_time_ms emission_time (elapsed_time_ms now start_time) ≤ 0 →
      request_sent_time start_time now emission_time = now) ∧
    (0 < wait_time_ms emission_time (elapsed_time_ms now start_time) →
      request_sent_time start_time now emission_time =
        now + wait_time_ms emission_time (elapsed_time_ms now start_time) / 1000) ∧
    start_time + emission_time / 1000 ≤ request_sent_time start_time now emission_time := by
  refine ⟨?_, ?_, ?_⟩
  · intro h
    rw [request_sent_time, if_neg (not_lt.mpr h)]
  · intro h
    rw [request_sent_time, if_pos h]
  · unfold request_sent_time wait_time_ms elapsed_time_ms
    by_cases h : emission_time - (now - start_time) * 1000 > 0
    · rw [if_pos h]
      have : now + (emission_time - (now - start_time) * 1000) / 1000 =
          start_time + emission_time / 1000 := by ring
      rw [this]
    · rw [if_neg h]
      push_neg at h
      linarith

/-- Witness for C2: epoch 0 s, task starts at 2 s, emission offset
5000 ms: the wait is positive and the task sleeps exactly 3 s. -/
theorem C2_witness :
    request_sent_time 0 2 5000 =
      2 + wait_time_ms 5000 (elapsed_time_ms 2 0) / 1000 :=
  (C2_wait_and_send 0 2 5000).2.1
    (by norm_num [wait_time_ms, elapsed_time_ms])

/-- Claim C3 counterexample: with `--verbose` set, a parsed response of
the wire contract's error shape (an `"error"` field and no `"text"`
field) does not cause a log-and-resend iteration — the verbose print at
lines 58-59 reads `output['text']` before the error check, raising
`KeyError` and aborting the task — so prepending this error response
changes the loop's outcome instead of being skipped, and the loop
produces no `RequestResult` from the remaining good response. -/
theorem C3_counterexample :
    ServerResponse.isGood (.parsed errorOutput) = false ∧
    requestLoop true [.parsed errorOutput] = .crashed "KeyError: text" ∧
    requestLoop true ([.parsed errorOutput] ++ [.parsed goodOutput]) ≠
      requestLoop true [.parsed goodOutput] ∧
    taskResult true 5 2 0 1 1 [.parsed errorOutput, .parsed goodOutput] = none := by
  refine ⟨rfl, rfl, ?_, rfl⟩
  decide

/-- Claim C3 (amended): an accepted output never carries an `"error"`
field, whatever the verbose flag; and with `--verbose` off (the default),
any run of malformed or error responses is consumed by log-and-resend
iterations with no retry limit, a well-formed error-free response
somewhere in the sequence guarantees an accepted output, and if every
response is bad no `RequestResult` is produced.  (Under `--verbose` a
parsed error body without a `"text"` field instead aborts the task.) -/
theorem C3_retry_loop (resps bad rest : List ServerResponse)
    (prompt_length output_length : ℕ) (sent_t end_t slo : ℚ) :
    (∀ verbose o, requestLoop verbose resps = .accepted o → o.error = none) ∧
    ((∀ r ∈ bad, r.isGood = false) →
      requestLoop false (bad ++ rest) = requestLoop false rest) ∧
    ((∃ r ∈ resps, r.isGood = true) →
      ∃ o, requestLoop false resps = .accepted o) ∧
    ((∀ r ∈ resps, r.isGood = false) →
      taskResult false prompt_length output_length sent_t end_t slo resps = none) := by
  refine ⟨fun verbose o h => requestLoop_accepted_no_error verbose resps o h,
          fun h => requestLoop_skips_bad bad rest h,
          fun h => requestLoop_terminates_on_good resps h,
          fun h => ?_⟩
  have hnone : requestLoop false resps = .exhausted := by
    have := requestLoop_skips_bad resps [] h
    rw [List.append_nil] at this
    exact this
  simp [taskResult, hnone]

/-- Witness for C3 on a concrete response sequence (malformed body, error
body, good body) with verbose off: the loop accepts an output. -/
theorem C3_witness : ∃ o, requestLoop false responsesExample = .accepted o := by
  have h := (C3_retry_loop responsesExample [] [] 0 0 0 0 0).2.2.1
  exact h ⟨.parsed goodOutput, by simp [responsesExample], rfl⟩

/-- Claim C4 (refuting the single-epoch invariant): `task` measures its
elapsed time against the module-level `start_time` captured at import
(line 12, read through `global start_time`), while the summary's
`total_time` is measured against `main`'s local re-capture (line 111,
which lacks a `global` declaration and so never updates the module-level
variable).  In a run where the module was imported at t = 0 s and `main`
captured its epoch at t = 5 s, a task computing its wait at the very
instant of that capture already sees 5000 ms elapsed while the summary
clock reads 0: the two references are different timestamps. -/
theorem C4_two_epochs_diverge :
    taskEpoch ⟨0, 5⟩ ≠ summaryEpoch ⟨0, 5⟩ ∧
    elapsed_time_ms 5 (taskEpoch ⟨0, 5⟩) = 5000 ∧
    totalTime ⟨0, 5⟩ 5 = 0 := by
  refine ⟨?_, ?_, ?_⟩ <;>
    norm_num [taskEpoch, summaryEpoch, elapsed_time_ms, totalTime]

/-- Claim C5 counterexample: the payload built for a concrete record does
not satisfy the spec's decoding gloss — its temperature is 1 (not the 0 of
greedy/deterministic decoding) and `ignore_eos` is `false` (early stop on
the end-of-sequence token stays enabled, not disabled). -/
theorem C5_counterexample :
    ¬ specDeterministicDecodingParams (buildPayload sampleRecord) ∧
    (buildPayload sampleRecord).temperature = 1 ∧
    (buildPayload sampleRecord).ignore_eos = false := by
  refine ⟨fun h => ?_, rfl, rfl⟩
  obtain ⟨_, _, _, htemp, _⟩ := h
  simp [buildPayload, sampleRecord] at htemp

/-- Claim C5 (amended): for every trace record the payload fixes a single
sample (n = 1, best_of = 1, no beam search) and the sampling parameters
temperature = 1.0 and top_p = 1.0, with early stopping on the
end-of-sequence token left enabled (`ignore_eos = false`) and no streaming
(`stream = false`). -/
theorem C5_payload_constants (r : TraceRecord) :
    (buildPayload r).n = 1 ∧ (buildPayload r).best_of = 1 ∧
    (buildPayload r).use_beam_search = false ∧
    (buildPayload r).temperature = 1 ∧ (buildPayload r).top_p = 1 ∧
    (buildPayload r).ignore_eos = false ∧ (buildPayload r).stream = false := by
  exact ⟨rfl, rfl, rfl, rfl, rfl, rfl, rfl⟩

/-- Claim C6: every request is an HTTP POST to
`http://{host}:{port}/generate` whose body has exactly the fields
`prompt` (the record's prompt), `n = 1`, `best_of = 1`,
`use_beam_search = false`, `temperature = 1.0`, `top_p = 1.0`,
`max_tokens` (the record's output length), `ignore_eos = false` and
`stream = false`. -/
theorem C6_wire_request (r : TraceRecord) (host port : String) :
    buildPayload r =
      { prompt := r.prompt, n := 1, best_of := 1, use_beam_search := false,
        temperature := 1, top_p := 1, max_tokens := r.output_length,
        ignore_eos := false, stream := false } ∧
    requestUrl host port = "http://" ++ host ++ ":" ++ port ++ "/generate" ∧
    requestMethod = "POST" := by
  exact ⟨rfl, rfl, rfl⟩

/-- Claim C7: the accumulation loop equals the fold of `evaluate_request`
over the completed results — request attainment is the sum of first
components, token attainment the sum of second components — and the
reported metrics are `attained_requests / total_requests` and
`attained_tokens / total_wall_clock_time`. -/
theorem C7_aggregate_metrics (results : List RequestResult)
    (base_ttft base_tpot total_time : ℚ) :
    tallyLoop results base_ttft base_tpot =
      ((results.map fun req => (evaluate_request req base_ttft base_tpot).1).sum,
       (results.map fun req => (evaluate_request req base_ttft base_tpot).2).sum) ∧
    request_attainment_rate results base_ttft base_tpot =
      (((results.map fun req => (evaluate_request req base_ttft base_tpot).1).sum : ℚ) /
        (results.length : ℚ)) ∧
    token_goodput results base_ttft base_tpot total_time =
      (((results.map fun req => (evaluate_request req base_ttft base_tpot).2).sum : ℚ) /
        total_time) := by
  refine ⟨tallyLoop_eq_sums results base_ttft base_tpot, ?_, ?_⟩
  · unfold request_attainment_rate
    rw [tallyLoop_eq_sums]
  · unfold token_goodput
    rw [tallyLoop_eq_sums]

/-- Claim C8 counterexample: records whose required fields are all of the
wrong type are accepted by the loader — no `MalformedTraceError` occurs,
contradicting the claim.  For `wrongTypedTrace` (string emission offset)
the accepted record's task then dies at the line-38 wait arithmetic
without sending; for `wrongTypedTrace2` (numeric emission offset, every
other field wrong-typed) the request is actually sent carrying the
wrong-typed values. -/
theorem C8_counterexample :
    (loadTrace wrongTypedTrace).isOk = true ∧
    sentRequests wrongTypedTrace = [] ∧
    (loadTrace wrongTypedTrace2).isOk = true ∧
    (sentRequests wrongTypedTrace2).length = 1 := by
  exact ⟨rfl, rfl, rfl, rfl⟩

/-- Claim C8 (amended): the loader processes the trace in order, and a
record that is missing a required field (`KeyError`) or is not an object
(`TypeError`) — the spec's `MalformedTraceError` — aborts the whole run
before any request is sent; fields of the wrong type, however, are not
detected at load time. -/
theorem C8_load_failure_aborts (trace : List Json) (j : Json)
    (hmem : j ∈ trace)
    (hbad : j.isObj = false ∨
      ∃ fields, j = Json.obj fields ∧
        ∃ k ∈ requiredKeys, fields.lookup k = none) :
    (∃ e, loadTrace trace = .error e) ∧ sentRequests trace = [] := by
  have hrec : ∃ e, loadRecord j = .error e := by
    rcases hbad with h | ⟨fields, hj, k, hk, hmiss⟩
    · exact loadRecord_non_object j h
    · subst hj
      exact loadRecord_missing_key fields k hk hmiss
  obtain ⟨e, he⟩ := hrec
  obtain ⟨e2, he2⟩ := loadTrace_fails_of_mem trace _ hmem e he
  exact ⟨⟨e2, he2⟩, by simp [sentRequests, he2]⟩

/-- Witness for C8 on a concrete one-record trace missing the `prompt`
key: loading fails and no request is sent. -/
theorem C8_witness :
    (∃ e, loadTrace missingFieldTrace = .error e) ∧
    sentRequests missingFieldTrace = [] :=
  C8_load_failure_aborts missingFieldTrace
    (.obj [("emission_time_ms", .num 0), ("input_length", .num 5),
           ("output_length", .num 8), ("slo_ratio", .num 1)])
    (by simp [missingFieldTrace])
    (Or.inr ⟨_, rfl, "prompt", by simp [requiredKeys], rfl⟩)

/-- Claim C9: the evaluation pass is deterministic and side-effect free —
running the tally fold over any two result lists that agree pairwise on
the fields the evaluator reads (send timestamp, slo_ratio, token
timestamps), in particular over the same persisted result set twice,
yields identical request-attainment and token-attainment totals. -/
theorem C9_tally_deterministic (l1 l2 : List RequestResult)
    (base_ttft base_tpot : ℚ) (h : List.Forall₂ sameEvalFields l1 l2) :
    (tallyLoop l1 base_ttft base_tpot).1 = (tallyLoop l2 base_ttft base_tpot).1 ∧
    (tallyLoop l1 base_ttft base_tpot).2 = (tallyLoop l2 base_ttft base_tpot).2 := by
  rw [tallyLoop_congr base_ttft base_tpot l1 l2 h]
  exact ⟨rfl, rfl⟩

/-- Witness for C9: evaluating the two-element result set twice (the
second copy agreeing on every evaluated field) gives equal tallies. -/
theorem C9_witness :
    (tallyLoop [attainedResult, missedResult] (3/10) (1/10)).1 =
      (tallyLoop [attainedResult, missedResult] (3/10) (1/10)).1 ∧
    (tallyLoop [attainedResult, missedResult] (3/10) (1/10)).2 =
      (tallyLoop [attainedResult, missedResult] (3/10) (1/10)).2 :=
  C9_tally_deterministic [attainedResult, missedResult]
    [attainedResult, missedResult] (3/10) (1/10)
    (by
      refine List.Forall₂.cons ⟨rfl, rfl, rfl⟩ ?_
      exact List.Forall₂.cons ⟨rfl, rfl, rfl⟩ List.Forall₂.nil)

/-- Claim C10: for every request and thresholds, `evaluate_request`
returns `(0, 0)` or `(1, len(token_timestamps))`; the token component
never exceeds the number of token timestamps and is zero whenever the
request component is zero. -/
theorem C10_evaluate_request_dichotomy (req : RequestResult)
    (target_ttft target_tpot : ℚ) :
    (evaluate_request req target_ttft target_tpot = (0, 0) ∨
     evaluate_request req target_ttft target_tpot =
       (1, req.token_timestamps.length)) ∧
    (evaluate_request req target_ttft target_tpot).2 ≤
      req.token_timestamps.length ∧
    ((evaluate_request req target_ttft target_tpot).1 = 0 →
      (evaluate_request req target_ttft target_tpot).2 = 0) := by
  unfold evaluate_request
  by_cases h1 : req.ftl > target_ttft * req.slo_ratio
  · simp [h1]
  · by_cases h2 : deltasWithin (target_tpot * req.slo_ratio) req.token_timestamps
    · simp [h1, h2]
    · simp [h1, h2]

/-- Witness for C10 at a request whose first token misses the threshold:
the request component is 0 and so is the token component. -/
theorem C10_witness :
    (evaluate_request missedResult (3/10) (1/10)).2 = 0 :=
  (C10_evaluate_request_dichotomy missedResult (3/10) (1/10)).2.2
    (by norm_num [evaluate_request, RequestResult.ftl, missedResult])
